import Mathlib

/-! Verification of the testground k8s network sidecar.

Shallow embedding of the sidecar's `K8sNetwork.ConfigureNetwork` state
machine, the `retry` helper and the `newNetworkConfigList` CNI config
builder (Go file `sidecar/k8s_network.go`, provided as
`src/unnamed/part_001`).  External collaborators (the CNI plugin, the
netlink kernel interface, route snapshots) are modelled as an oracle
(`World`) whose fields supply the results the external calls would
return; the control flow, wrapping of error messages, state updates and
the order of externally visible calls (the trace) are translated
directly from the source.
-/

namespace Sidecar

/-- A `net.IPNet` value: an IP address plus a mask.  `IP.Equal` compares
the `ip` component; `String()` renders `ip ++ "/" ++ mask`. -/
structure IPNet where
  ip : String
  mask : String
deriving DecidableEq, Repr

/-- Go's `(*net.IPNet).String()`, e.g. `10.0.0.5/24`. -/
def IPNet.render (n : IPNet) : String := n.ip ++ "/" ++ n.mask

/-- Modelled from the spec: `network.Config` comes from the external
`sdk-go` module (not under `src/`).  Per the spec's data model it carries
a network identifier, an enable flag, optional requested IPv4/IPv6
addresses, a default shaping profile, an ordered rule list and a routing
policy; the last three are opaque payloads here (the sidecar only passes
them through to `Shape`, `AddRules` and `handleRoutingPolicy`). -/
structure NetworkConfig where
  Network : String
  Enable : Bool
  IPv4 : Option IPNet
  IPv6 : Option IPNet
  Default : String
  Rules : List String
  RoutingPolicy : String
deriving DecidableEq, Repr

/-- Modelled from the spec: the managed default data network name; the
constant `defaultDataNetwork` is defined outside the provided sources.
The spec's Scenario A uses the name `default`. -/
def defaultDataNetwork : String := "default"

/-- Modelled from the spec: the fixed data-network interface name
(`dataNetworkIfname`, defined outside the provided sources; the spec
says only that the runtime record carries a fixed interface name). -/
def dataNetworkIfname : String := "eth1"

/-- IPAM payload of a CNI plugin entry: either a subnet pool or a fixed
list of `(version, address)` entries, mirroring the two JSON shapes built
by `newNetworkConfigList`. -/
inductive Ipam where
  | subnet (s : String)
  | ips (entries : List (String × String))
deriving DecidableEq, Repr

/-- One entry of the `plugins` array in the CNI JSON document. -/
structure PluginConf where
  pluginName : String
  pluginType : String
  ipam : Ipam
  hairpinMode : Bool
deriving DecidableEq, Repr

/-- `libcni.NetworkConfigList`: the parsed form of the JSON document the
sidecar hands to the CNI plugin (`cniVersion`, `name`, `plugins`). -/
structure NetworkConfigList where
  cniVersion : String
  name : String
  plugins : List PluginConf
deriving DecidableEq, Repr

/-- `libcni.RuntimeConf` as built by `ConfigureNetwork`: container ID,
namespace path, interface name and the (empty) args. -/
structure RuntimeConf where
  ContainerID : String
  NetNS : String
  IfName : String
  Args : List (String × String)
deriving DecidableEq, Repr

/-- `newNetworkConfigList` from the source: `"net"` builds the pool-mode
document (`ipam.subnet = addr`), `"ip"` builds the fixed-address document
(`ipam.ips = [⟨"4", addr⟩]`), anything else is the `unknown type` error.
Both documents use cniVersion 0.3.0, name/type `weave-net` and
`hairpinMode: true`, with a single plugin entry. -/
def newNetworkConfigList (t : String) (addr : String) :
    Except String NetworkConfigList :=
  match t with
  | "net" =>
      .ok { cniVersion := "0.3.0", name := "weave-net",
            plugins := [{ pluginName := "weave-net", pluginType := "weave-net",
                          ipam := .subnet addr, hairpinMode := true }] }
  | "ip" =>
      .ok { cniVersion := "0.3.0", name := "weave-net",
            plugins := [{ pluginName := "weave-net", pluginType := "weave-net",
                          ipam := .ips [("4", addr)], hairpinMode := true }] }
  | _ => .error ("unknown type")

/-- The error message `retry` builds after exhausting its budget
(`fmt.Errorf("after %d attempts, last error: %s", attempts, err)`). -/
def retryErrMsg (attempts : Nat) (e : String) : String :=
  "after " ++ toString attempts ++ " attempts, last error: " ++ e

/-- Loop body of `retry`.  `f i` is the outcome of the `(i+1)`-th call of
the retried function (`none` = success, `some e` = failure with message
`e`).  Returns the total number of calls made together with the final
result.  The `time.Sleep` between failed attempts has no observable
effect in this model. -/
def retryAux (attempts : Nat) (f : Nat → Option String) (i : Nat) :
    Nat × Option String :=
  match f i with
  | none => (i + 1, none)
  | some e =>
      if attempts - 1 ≤ i then (i + 1, some (retryErrMsg attempts e))
      else retryAux attempts f (i + 1)
termination_by attempts - 1 - i
decreasing_by omega

/-- `retry(attempts, sleep, f)` from the source: call `f` until it
succeeds or until `attempts` calls have been made; on exhaustion return
the wrapping error naming the attempt count and the last failure.
Result: `(number of calls made, final error)`. -/
def retry (attempts : Nat) (sleep : Nat) (f : Nat → Option String) :
    Nat × Option String :=
  let _ := sleep
  retryAux attempts f 0

/-- A `k8sLink` (the sidecar's `ActiveLink` record): the addresses the
link was registered with (Go pointers, hence `Option`), the CNI runtime
record and the CNI network-config-list used to create it.  The embedded
`NetlinkLink` kernel handle has no observable content in this model. -/
structure K8sLink where
  IPv4 : Option IPNet
  IPv6 : Option IPNet
  rt : RuntimeConf
  netconf : NetworkConfigList
deriving DecidableEq, Repr

/-- The `K8sNetwork` struct: container identity, active-link table,
external-routing table, subnet and namespace path.  The `netlink.Handle`
and `libcni.CNIConfig` handles live in the `World` oracle. -/
structure K8sNetwork where
  containerID : String
  subnet : String
  netnsPath : String
  activeLinks : List (String × K8sLink)
  externalRouting : List (String × List String)
deriving DecidableEq, Repr

/-- Go map read `m[k]` on an association list. -/
def mapLookup (links : List (String × K8sLink)) (k : String) : Option K8sLink :=
  (links.find? (fun p => p.1 == k)).map Prod.snd

/-- Go `delete(m, k)` on an association list. -/
def mapErase (links : List (String × K8sLink)) (k : String) :
    List (String × K8sLink) :=
  links.filter (fun p => ! (p.1 == k))

/-- Go map write `m[k] = v` on an association list. -/
def mapInsert (links : List (String × K8sLink)) (k : String) (v : K8sLink) :
    List (String × K8sLink) :=
  (k, v) :: mapErase links k

/-- Go map write on the external-routing table. -/
def routesInsert (tbl : List (String × List String)) (k : String)
    (v : List String) : List (String × List String) :=
  (k, v) :: tbl.filter (fun p => ! (p.1 == k))

/-- Externally visible calls `ConfigureNetwork` makes, in order: CNI
attach/detach invocations, the address-count warning, and the
`Shape` / `AddRules` / `handleRoutingPolicy` steps. -/
inductive Event where
  | cniAttach (netconf : NetworkConfigList) (rt : RuntimeConf)
  | cniDetach (netconf : NetworkConfigList) (rt : RuntimeConf)
  | warnAddrCount (n : Nat)
  | shape (profile : String)
  | addRules (rules : List String)
  | routingPolicy (policy : String)
deriving DecidableEq, Repr

/-- Outcome of a `ConfigureNetwork` call: a nil error, a Go error with
its message, or a Go runtime panic. -/
inductive Outcome where
  | ok
  | err (msg : String)
  | panic (msg : String)
deriving DecidableEq, Repr

/-- Result of one `ConfigureNetwork` invocation: the returned outcome,
the `K8sNetwork` state after the call, and the trace of external calls
issued. -/
structure ConfigResult where
  outcome : Outcome
  state : K8sNetwork
  trace : List Event
deriving DecidableEq, Repr

/-- Oracle for the external collaborators of one `ConfigureNetwork`
invocation.  Modelled from the spec where the callee is outside the
provided sources (`getK8sRoutes`, `NewNetlinkLink`, `NetlinkLink`
methods, `handleRoutingPolicy`): each field is the result the
corresponding external call returns (`none` = success). -/
structure World where
  /-- Result of `cninet.DelNetworkList`. -/
  delErr : Option String
  /-- Result of the `i`-th `cninet.AddNetworkList` attempt inside `retry`. -/
  addResults : Nat → Option String
  /-- Whether the 30-second `time.After` timer fires before the retry
  goroutine delivers its result on `errc`. -/
  deadlineFirst : Bool
  /-- Result of `nl.LinkByName(dataNetworkIfname)`. -/
  linkByNameErr : Option String
  /-- Routes value returned by `getK8sRoutes` (stored even on error). -/
  routes : List String
  /-- Error returned by `getK8sRoutes`. -/
  routesErr : Option String
  /-- Error returned by `NewNetlinkLink`. -/
  newNetlinkErr : Option String
  /-- Addresses returned by `handle.ListV4()`. -/
  v4addrs : List IPNet
  /-- Error returned by `handle.ListV4()`. -/
  listV4Err : Option String
  /-- Error returned by `link.Shape(cfg.Default)`. -/
  shapeErr : Option String
  /-- Error returned by `link.AddRules(cfg.Rules)`. -/
  addRulesErr : Option String
  /-- Error returned by `handleRoutingPolicy`. -/
  routingPolicyErr : Option String

/-- The address-change condition of the source,
`(cfg.IPv6 != nil && !link.IPv6.IP.Equal(cfg.IPv6.IP)) ||
 (cfg.IPv4 != nil && !link.IPv4.IP.Equal(cfg.IPv4.IP))`,
with Go's short-circuit evaluation; dereferencing a nil link address
pointer is a Go runtime panic, returned as `.error`. -/
def addrMismatch (link : K8sLink) (cfg : NetworkConfig) : Except String Bool :=
  let v4check : Except String Bool :=
    match cfg.IPv4 with
    | none => .ok false
    | some c4 =>
        match link.IPv4 with
        | none => .error ("runtime error: invalid memory address or nil pointer dereference")
        | some l4 => .ok (¬ l4.ip == c4.ip)
  match cfg.IPv6 with
  | none => v4check
  | some c6 =>
      match link.IPv6 with
      | none => .error ("runtime error: invalid memory address or nil pointer dereference")
      | some l6 => if ¬ l6.ip == c6.ip then .ok true else v4check

/-- Tail of `ConfigureNetwork` once a link is online:
`link.Shape(cfg.Default)`, `link.AddRules(cfg.Rules)` and
`handleRoutingPolicy(...)`, each aborting with the source's (un)wrapped
error. -/
def shapeTail (w : World) (cfg : NetworkConfig) (st : K8sNetwork)
    (tr : List Event) : ConfigResult :=
  let tr := tr ++ [Event.shape cfg.Default]
  match w.shapeErr with
  | some e => ⟨.err ("failed to shape link: " ++ e), st, tr⟩
  | none =>
      let tr := tr ++ [Event.addRules cfg.Rules]
      match w.addRulesErr with
      | some e => ⟨.err e, st, tr⟩
      | none =>
          let tr := tr ++ [Event.routingPolicy cfg.RoutingPolicy]
          match w.routingPolicyErr with
          | some e => ⟨.err e, st, tr⟩
          | none => ⟨.ok, st, tr⟩

/-- The attach branch of `ConfigureNetwork` (`if !online { ... }`),
entered with the state `st` current at that point: IPv6 rejection, CNI
config construction, the retried `AddNetworkList` raced against the
30-second timer, interface resolution, route snapshot, address listing
(Go panics indexing `v4addrs[0]` when the list is empty), registration of
the new active link, then the shaping tail.  The retry goroutine runs all
its attempts even when the timer wins the race, so the attach attempts
appear in the trace in both cases. -/
def attachBranch (w : World) (cfg : NetworkConfig) (st : K8sNetwork)
    (tr : List Event) : ConfigResult :=
  if cfg.IPv6.isSome then ⟨.err ("ipv6 not supported"), st, tr⟩
  else
    let netconfE :=
      match cfg.IPv4 with
      | none => newNetworkConfigList ("net") st.subnet
      | some c4 => newNetworkConfigList ("ip") c4.render
    match netconfE with
    | .error e => ⟨.err ("failed to generate new network config list: " ++ e), st, tr⟩
    | .ok netconf =>
        let rt : RuntimeConf :=
          { ContainerID := st.containerID, NetNS := st.netnsPath,
            IfName := dataNetworkIfname, Args := [] }
        let r := retry 3 2 w.addResults
        let tr := tr ++ List.replicate r.1 (Event.cniAttach netconf rt)
        if w.deadlineFirst then
          ⟨.err ("timeout waiting on cninet.AddNetworkList"), st, tr⟩
        else
          match r.2 with
          | some e => ⟨.err ("failed to add network through cni plugin: " ++ e), st, tr⟩
          | none =>
              match w.linkByNameErr with
              | some e =>
                  ⟨.err ("failed to get link by name " ++ dataNetworkIfname ++ ": " ++ e), st, tr⟩
              | none =>
                  let st := { st with externalRouting :=
                                routesInsert st.externalRouting dataNetworkIfname w.routes }
                  match w.routesErr with
                  | some e => ⟨.err e, st, tr⟩
                  | none =>
                      match w.newNetlinkErr with
                      | some e => ⟨.err ("failed to register new netlink: " ++ e), st, tr⟩
                      | none =>
                          match w.listV4Err with
                          | some e => ⟨.err ("failed to list v4 addrs: " ++ e), st, tr⟩
                          | none =>
                              let tr :=
                                if w.v4addrs.length ≠ 1 then
                                  tr ++ [Event.warnAddrCount w.v4addrs.length]
                                else tr
                              match w.v4addrs with
                              | [] =>
                                  ⟨.panic ("runtime error: index out of range [0] with length 0"), st, tr⟩
                              | a :: _ =>
                                  let link : K8sLink :=
                                    { IPv4 := some a, IPv6 := none,
                                      rt := rt, netconf := netconf }
                                  let st := { st with activeLinks :=
                                                mapInsert st.activeLinks cfg.Network link }
                                  shapeTail w cfg st tr

/-- Body of `ConfigureNetwork` after the hard-coded skip (the source
lines from the active-link lookup to the final `return nil`): the
disable branch, the detach-and-reconnect address-change branch, the
attach branch, and the shaping tail. -/
def configureNetworkBody (w : World) (cfg : NetworkConfig)
    (st : K8sNetwork) : ConfigResult :=
  let link? := mapLookup st.activeLinks cfg.Network
  if ¬ cfg.Enable then
    match link? with
    | some link =>
        let tr := [Event.cniDetach link.netconf link.rt]
        match w.delErr with
        | some e => ⟨.err ("when 6: " ++ e), st, tr⟩
        | none =>
            ⟨.ok, { st with activeLinks := mapErase st.activeLinks cfg.Network }, tr⟩
    | none => ⟨.ok, st, []⟩
  else
    match link? with
    | some link =>
        match addrMismatch link cfg with
        | .error msg => ⟨.panic msg, st, []⟩
        | .ok true =>
            let tr := [Event.cniDetach link.netconf link.rt]
            match w.delErr with
            | some e => ⟨.err ("when 5: " ++ e), st, tr⟩
            | none =>
                let st := { st with activeLinks := mapErase st.activeLinks cfg.Network }
                attachBranch w cfg st tr
        | .ok false => shapeTail w cfg st []
    | none => attachBranch w cfg st []

/-- The hard-coded skip flag of `ConfigureNetwork`
(`var skipConfig = true`). -/
def skipConfig : Bool := true

/-- `K8sNetwork.ConfigureNetwork` from the source: reject any network
name other than `defaultDataNetwork`; then, because `skipConfig` is
hard-coded to `true`, log and return nil; the remaining body
(`configureNetworkBody`) is unreachable. -/
def K8sNetwork.ConfigureNetwork (w : World) (cfg : NetworkConfig)
    (st : K8sNetwork) : ConfigResult :=
  if ¬ cfg.Network == defaultDataNetwork then
    ⟨.err ("configured network is not `" ++ defaultDataNetwork ++ "`"), st, []⟩
  else if skipConfig then ⟨.ok, st, []⟩
  else configureNetworkBody w cfg st

/-- Number of CNI attach calls in a trace. -/
def countAttach (tr : List Event) : Nat :=
  (tr.filter (fun e => match e with | .cniAttach _ _ => true | _ => false)).length

/-- Number of CNI detach calls in a trace. -/
def countDetach (tr : List Event) : Nat :=
  (tr.filter (fun e => match e with | .cniDetach _ _ => true | _ => false)).length

/-! ## Concrete fixtures used to instantiate the theorems -/

/-- A world in which every external call succeeds and the kernel reports
the single address `10.0.0.5/24`. -/
def wOK : World :=
  { delErr := none, addResults := fun _ => none, deadlineFirst := false,
    linkByNameErr := none, routes := ["r1"], routesErr := none,
    newNetlinkErr := none, v4addrs := [⟨"10.0.0.5", "24"⟩], listV4Err := none,
    shapeErr := none, addRulesErr := none, routingPolicyErr := none }

/-- A sidecar state with no active link. -/
def st0 : K8sNetwork :=
  { containerID := "c1", subnet := "10.0.0.0/16", netnsPath := "/ns/1",
    activeLinks := [], externalRouting := [] }

/-- Scenario A config: managed network, enabled, explicit IPv4. -/
def cfgA : NetworkConfig :=
  { Network := "default", Enable := true, IPv4 := some ⟨"10.0.0.5", "24"⟩,
    IPv6 := none, Default := "shape0", Rules := ["rule0"],
    RoutingPolicy := "allow" }

/-- An active link holding `10.0.0.5/24`. -/
def linkA : K8sLink :=
  { IPv4 := some ⟨"10.0.0.5", "24"⟩, IPv6 := none,
    rt := { ContainerID := "c1", NetNS := "/ns/1", IfName := "eth1", Args := [] },
    netconf := { cniVersion := "0.3.0", name := "weave-net", plugins := [] } }

/-- A sidecar state whose managed network is online with `linkA`. -/
def stOn : K8sNetwork := { st0 with activeLinks := [("default", linkA)] }

/-- The pool-mode CNI document `newNetworkConfigList ("net")` builds. -/
def netPoolConf (addr : String) : NetworkConfigList :=
  { cniVersion := "0.3.0", name := "weave-net",
    plugins := [{ pluginName := "weave-net", pluginType := "weave-net",
                  ipam := .subnet addr, hairpinMode := true }] }

/-- The fixed-address CNI document `newNetworkConfigList ("ip")` builds. -/
def ipFixedConf (addr : String) : NetworkConfigList :=
  { cniVersion := "0.3.0", name := "weave-net",
    plugins := [{ pluginName := "weave-net", pluginType := "weave-net",
                  ipam := .ips [("4", addr)], hairpinMode := true }] }

/-! ## Properties of the retry helper -/

theorem retryAux_of_none {n : Nat} {f : Nat → Option String} {i : Nat}
    (h : f i = none) : retryAux n f i = (i + 1, none) := by
  unfold retryAux
  simp [h]

theorem retryAux_of_some_last {n : Nat} {f : Nat → Option String} {i : Nat}
    {e : String} (h : f i = some e) (hle : n - 1 ≤ i) :
    retryAux n f i = (i + 1, some (retryErrMsg n e)) := by
  unfold retryAux
  simp [h, hle]

theorem retryAux_of_some_step {n : Nat} {f : Nat → Option String} {i : Nat}
    {e : String} (h : f i = some e) (hlt : ¬ n - 1 ≤ i) :
    retryAux n f i = retryAux n f (i + 1) := by
  conv_lhs => unfold retryAux
  simp [h, hlt]

theorem retryAux_count_le (n : Nat) (f : Nat → Option String) :
    ∀ m i, n - 1 - i ≤ m → i < n → (retryAux n f i).1 ≤ n := by
  intro m
  induction m with
  | zero =>
      intro i h1 h2
      cases hf : f i with
      | none => rw [retryAux_of_none hf]; omega
      | some e => rw [retryAux_of_some_last hf (by omega)]; omega
  | succ m ih =>
      intro i h1 h2
      cases hf : f i with
      | none => rw [retryAux_of_none hf]; omega
      | some e =>
          by_cases hle : n - 1 ≤ i
          · rw [retryAux_of_some_last hf hle]; omega
          · rw [retryAux_of_some_step hf hle]
            exact ih (i + 1) (by omega) (by omega)

theorem retryAux_first_success (n : Nat) (f : Nat → Option String) (j : Nat)
    (hj : j < n) (hnone : f j = none) :
    ∀ m k, j - k ≤ m → k ≤ j → (∀ i, k ≤ i → i < j → (f i).isSome) →
      retryAux n f k = (j + 1, none) := by
  intro m
  induction m with
  | zero =>
      intro k h1 h2 _
      have hkj : k = j := by omega
      subst hkj
      exact retryAux_of_none hnone
  | succ m ih =>
      intro k h1 h2 h3
      rcases Nat.eq_or_lt_of_le h2 with rfl | hk
      · exact retryAux_of_none hnone
      · obtain ⟨e, he⟩ := Option.isSome_iff_exists.mp (h3 k le_rfl hk)
        rw [retryAux_of_some_step he (by omega)]
        exact ih (k + 1) (by omega) hk (fun i hi1 hi2 => h3 i (by omega) hi2)

theorem retryAux_exhaust (n : Nat) (f : Nat → Option String) (e : String)
    (hn : 1 ≤ n) (hlast : f (n - 1) = some e)
    (hfail : ∀ i, i < n → (f i).isSome) :
    ∀ m k, n - 1 - k ≤ m → k < n →
      retryAux n f k = (n, some (retryErrMsg n e)) := by
  intro m
  induction m with
  | zero =>
      intro k h1 h2
      have hkn : k = n - 1 := by omega
      subst hkn
      rw [retryAux_of_some_last hlast le_rfl]
      congr 1
      omega
  | succ m ih =>
      intro k h1 h2
      by_cases hk : k = n - 1
      · subst hk
        rw [retryAux_of_some_last hlast le_rfl]
        congr 1
        omega
      · obtain ⟨e', he'⟩ := Option.isSome_iff_exists.mp (hfail k h2)
        rw [retryAux_of_some_step he' (by omega)]
        exact ih (k + 1) (by omega) (by omega)

/-- C4.  `retry(n, d, fn)` calls `fn` at most `n` times; the first
successful call (say the `(j+1)`-th) ends the loop immediately with a
nil error; if all `n` calls fail, the result is the single error naming
the attempt count `n` and wrapping the final failure. -/
theorem retry_bounded_and_first_success_and_exhaust
    (n d : Nat) (f : Nat → Option String) (hn : 1 ≤ n) :
    (retry n d f).1 ≤ n ∧
    (∀ j, j < n → f j = none → (∀ i, i < j → (f i).isSome) →
        retry n d f = (j + 1, none)) ∧
    (∀ e, f (n - 1) = some e → (∀ i, i < n → (f i).isSome) →
        retry n d f = (n, some (retryErrMsg n e))) := by
  refine ⟨?_, ?_, ?_⟩
  · exact retryAux_count_le n f (n - 1) 0 (by omega) (by omega)
  · intro j hj hnone hfail
    exact retryAux_first_success n f j hj hnone j 0 (by omega) (by omega)
      (fun i _ hi2 => hfail i hi2)
  · intro e hlast hfail
    exact retryAux_exhaust n f e hn hlast hfail (n - 1) 0 (by omega) (by omega)

/-- Witness for C4 at the spec's own example: `retry(3, d, fn)` with an
`fn` that fails twice and then succeeds makes exactly 3 calls and
returns nil; the always-failing `fn` yields the `after 3 attempts` error. -/
theorem retry_bounded_and_first_success_and_exhaust_witness :
    retry 3 2 (fun i => if i < 2 then some ("boom") else none) = (3, none) ∧
    retry 3 2 (fun _ => some ("boom")) =
      (3, some (retryErrMsg 3 ("boom"))) := by
  constructor
  · exact (retry_bounded_and_first_success_and_exhaust 3 2
      (fun i => if i < 2 then some ("boom") else none) (by decide)).2.1 2
      (by decide) (by decide) (by decide)
  · exact (retry_bounded_and_first_success_and_exhaust 3 2
      (fun _ => some ("boom")) (by decide)).2.2 ("boom") (by decide)
      (fun i _ => by decide)

/-- C5 counterexample.  `retry` keeps calling `fn` after a context
cancellation is observed: with every call failing with the cancellation
error, `retry(3, d, fn)` still makes all 3 calls (rather than aborting
after the first observed cancellation) and wraps the last failure. -/
theorem retry_ignores_cancellation_counterexample :
    retry 3 2 (fun _ => some ("context canceled")) =
      (3, some (retryErrMsg 3 ("context canceled"))) ∧ (1 : Nat) < 3 := by
  constructor
  · unfold retry
    exact retryAux_exhaust 3 (fun _ => some ("context canceled"))
      ("context canceled") (by omega) rfl (fun _ _ => rfl) 2 0 (by omega) (by omega)
  · decide

/-- C5 amended.  The `retry` helper takes no context and observes no
cancellation signal: whenever every call fails — as happens when the
caller's context has been cancelled and the retried operation keeps
returning the cancellation error — `retry` performs its full budget of
`n` calls, for every attempt budget `n ≥ 1` and every failure content. -/
theorem retry_runs_full_budget_regardless_of_errors
    (n d : Nat) (f : Nat → Option String) (hn : 1 ≤ n)
    (hfail : ∀ i, i < n → (f i).isSome) : (retry n d f).1 = n := by
  obtain ⟨e, he⟩ := Option.isSome_iff_exists.mp (hfail (n - 1) (by omega))
  have := retryAux_exhaust n f e hn he hfail (n - 1) 0 (by omega) (by omega)
  unfold retry
  rw [this]

/-- Witness for C5 amended at `n = 3` with the cancellation error. -/
theorem retry_runs_full_budget_regardless_of_errors_witness :
    (retry 3 2 (fun _ => some ("context canceled"))).1 = 3 :=
  retry_runs_full_budget_regardless_of_errors 3 2
    (fun _ => some ("context canceled")) (by decide) (fun _ _ => rfl)

/-- C7.  `newNetworkConfigList` supports exactly the kinds `"net"` and
`"ip"`: `"net"` yields the single-plugin document whose ipam carries the
`subnet` field holding the given string, `"ip"` yields the one whose
ipam carries `ips = [("4", addr)]`, and every other kind string yields
the `unknown type` error and no config list. -/
theorem newNetworkConfigList_kinds (a : String) :
    newNetworkConfigList ("net") a = .ok (netPoolConf a) ∧
    (netPoolConf a).plugins.map (fun p => p.ipam) = [.subnet a] ∧
    newNetworkConfigList ("ip") a = .ok (ipFixedConf a) ∧
    (ipFixedConf a).plugins.map (fun p => p.ipam) = [.ips [("4", a)]] ∧
    (∀ t, t ≠ "net" → t ≠ "ip" → newNetworkConfigList t a = .error ("unknown type")) := by
  refine ⟨rfl, rfl, rfl, rfl, ?_⟩
  intro t h1 h2
  unfold newNetworkConfigList
  split
  · exact absurd rfl h1
  · exact absurd rfl h2
  · rfl

/-- Witness for C7 at a concrete subnet, address and unsupported kind. -/
theorem newNetworkConfigList_kinds_witness :
    newNetworkConfigList ("net") ("10.0.0.0/16") = .ok (netPoolConf ("10.0.0.0/16")) ∧
    newNetworkConfigList ("ip") ("10.0.0.5/24") = .ok (ipFixedConf ("10.0.0.5/24")) ∧
    newNetworkConfigList ("foo") ("10.0.0.5/24") = .error ("unknown type") :=
  ⟨(newNetworkConfigList_kinds ("10.0.0.0/16")).1,
   (newNetworkConfigList_kinds ("10.0.0.5/24")).2.2.1,
   (newNetworkConfigList_kinds ("10.0.0.5/24")).2.2.2.2 ("foo") (by decide) (by decide)⟩

/-- C1.  For every config naming the managed default data network,
`ConfigureNetwork` returns nil immediately because of the hard-coded
`skipConfig = true`: no CNI attach or detach call is made (empty trace),
and the active-link and external-routing tables are unchanged. -/
theorem configureNetwork_skip_short_circuits
    (w : World) (cfg : NetworkConfig) (st : K8sNetwork)
    (h : cfg.Network = defaultDataNetwork) :
    K8sNetwork.ConfigureNetwork w cfg st = ⟨.ok, st, []⟩ := by
  unfold K8sNetwork.ConfigureNetwork
  simp [h, skipConfig]

/-- Witness for C1 at Scenario A's config against the empty state. -/
theorem configureNetwork_skip_short_circuits_witness :
    cfgA.Network = defaultDataNetwork ∧
    K8sNetwork.ConfigureNetwork wOK cfgA st0 = ⟨.ok, st0, []⟩ :=
  ⟨rfl, configureNetwork_skip_short_circuits wOK cfgA st0 rfl⟩

theorem mapLookup_mapErase (l : List (String × K8sLink)) (k : String) :
    mapLookup (mapErase l k) k = none := by
  unfold mapLookup mapErase
  rw [List.find?_eq_none.mpr]
  · rfl
  · intro x hx
    have hq := (List.mem_filter.mp hx).2
    simp only [Bool.not_eq_true'] at hq
    simp [hq]

/-- Scenario A's config with an IPv6 address added. -/
def cfg6 : NetworkConfig := { cfgA with IPv6 := some ⟨"fd00::1", "64"⟩ }

/-- C2 counterexample.  A managed-name config with a non-nil IPv6
address does not make `ConfigureNetwork` fail with the `ipv6 not
supported` error: because of the hard-coded skip it returns nil (with no
CNI call and the table unchanged). -/
theorem configureNetwork_ipv6_counterexample :
    cfg6.IPv6.isSome ∧ cfg6.Network = defaultDataNetwork ∧
    K8sNetwork.ConfigureNetwork wOK cfg6 st0 = ⟨.ok, st0, []⟩ := by
  refine ⟨rfl, rfl, ?_⟩
  simp [K8sNetwork.ConfigureNetwork, skipConfig, cfg6, cfgA, defaultDataNetwork]

/-- C2 amended.  For a managed-name config with a non-nil IPv6 address,
`ConfigureNetwork` returns nil with no CNI call and unchanged state
(hard-coded skip); the `ipv6 not supported` error survives only in the
unreachable body, where it is produced on the offline attach path (still
with no CNI call and unchanged state). -/
theorem configureNetwork_ipv6_skip_and_body
    (w : World) (cfg : NetworkConfig) (st : K8sNetwork)
    (hname : cfg.Network = defaultDataNetwork) (h6 : cfg.IPv6.isSome) :
    K8sNetwork.ConfigureNetwork w cfg st = ⟨.ok, st, []⟩ ∧
    (cfg.Enable = true → mapLookup st.activeLinks cfg.Network = none →
      configureNetworkBody w cfg st = ⟨.err ("ipv6 not supported"), st, []⟩) := by
  constructor
  · unfold K8sNetwork.ConfigureNetwork
    simp [hname, skipConfig]
  · intro hen hoff
    unfold configureNetworkBody attachBranch
    simp [hen, hoff, h6]

/-- Witness for C2 amended: the IPv6 config against the empty state. -/
theorem configureNetwork_ipv6_skip_and_body_witness :
    K8sNetwork.ConfigureNetwork wOK cfg6 st0 = ⟨.ok, st0, []⟩ ∧
    (cfg6.Enable = true → mapLookup st0.activeLinks cfg6.Network = none →
      configureNetworkBody wOK cfg6 st0 = ⟨.err ("ipv6 not supported"), st0, []⟩) :=
  configureNetwork_ipv6_skip_and_body wOK cfg6 st0 rfl rfl

/-- C3 counterexample.  Scenario A (managed network, enabled, explicit
IPv4, no prior link) triggers no CNI attach at all and stores no link:
the hard-coded skip returns nil with an empty trace. -/
theorem configureNetwork_scenarioA_counterexample :
    cfgA.Enable = true ∧ cfgA.IPv4.isSome ∧
    mapLookup st0.activeLinks cfgA.Network = none ∧
    K8sNetwork.ConfigureNetwork wOK cfgA st0 = ⟨.ok, st0, []⟩ ∧
    countAttach (K8sNetwork.ConfigureNetwork wOK cfgA st0).trace = 0 ∧
    mapLookup (K8sNetwork.ConfigureNetwork wOK cfgA st0).state.activeLinks
      cfgA.Network = none := by
  refine ⟨rfl, rfl, rfl, ?_, ?_, ?_⟩ <;>
    simp [K8sNetwork.ConfigureNetwork, skipConfig, cfgA, defaultDataNetwork,
      countAttach, mapLookup, st0]

/-- C3 amended.  Scenario A holds of the (unreachable) body: with no
prior link, an enabled managed config with explicit IPv4 `a`, a first
CNI attach attempt that succeeds before the deadline, and a kernel that
reports exactly the requested address, the body issues exactly one CNI
attach carrying the fixed-address (`"ip"`) IPAM config built from `a`,
and stores an active link whose address is `a`.  `ConfigureNetwork`
itself performs no attach (see the counterexample). -/
theorem configureNetworkBody_scenarioA
    (w : World) (cfg : NetworkConfig) (st : K8sNetwork) (a : IPNet)
    (hen : cfg.Enable = true) (h4 : cfg.IPv4 = some a) (h6 : cfg.IPv6 = none)
    (hoff : mapLookup st.activeLinks cfg.Network = none)
    (hdl : w.deadlineFirst = false) (ha0 : w.addResults 0 = none)
    (hlink : w.linkByNameErr = none) (hroutes : w.routesErr = none)
    (hnl : w.newNetlinkErr = none) (hlist : w.listV4Err = none)
    (hv4 : w.v4addrs = [a]) (hsh : w.shapeErr = none)
    (hru : w.addRulesErr = none) (hrp : w.routingPolicyErr = none) :
    newNetworkConfigList ("ip") a.render = .ok (ipFixedConf a.render) ∧
    configureNetworkBody w cfg st =
      ⟨.ok,
       { st with
           activeLinks := mapInsert st.activeLinks cfg.Network
             { IPv4 := some a, IPv6 := none,
               rt := { ContainerID := st.containerID, NetNS := st.netnsPath,
                       IfName := dataNetworkIfname, Args := [] },
               netconf := ipFixedConf a.render },
           externalRouting :=
             routesInsert st.externalRouting dataNetworkIfname w.routes },
       [.cniAttach (ipFixedConf a.render)
          { ContainerID := st.containerID, NetNS := st.netnsPath,
            IfName := dataNetworkIfname, Args := [] },
        .shape cfg.Default, .addRules cfg.Rules,
        .routingPolicy cfg.RoutingPolicy]⟩ ∧
    countAttach (configureNetworkBody w cfg st).trace = 1 := by
  have hr : retry 3 2 w.addResults = (1, none) := by
    unfold retry
    exact retryAux_of_none ha0
  refine ⟨rfl, ?_, ?_⟩ <;>
    simp [configureNetworkBody, attachBranch, shapeTail, hen, hoff, h4, h6,
      hdl, hr, hlink, hroutes, hnl, hlist, hv4, hsh, hru, hrp,
      newNetworkConfigList, ipFixedConf, countAttach]

/-- Witness for C3 amended at Scenario A's concrete data. -/
theorem configureNetworkBody_scenarioA_witness :
    newNetworkConfigList ("ip") (IPNet.render ⟨"10.0.0.5", "24"⟩) =
      .ok (ipFixedConf (IPNet.render ⟨"10.0.0.5", "24"⟩)) ∧
    configureNetworkBody wOK cfgA st0 =
      ⟨.ok,
       { st0 with
           activeLinks := mapInsert st0.activeLinks cfgA.Network
             { IPv4 := some ⟨"10.0.0.5", "24"⟩, IPv6 := none,
               rt := { ContainerID := st0.containerID, NetNS := st0.netnsPath,
                       IfName := dataNetworkIfname, Args := [] },
               netconf := ipFixedConf (IPNet.render ⟨"10.0.0.5", "24"⟩) },
           externalRouting :=
             routesInsert st0.externalRouting dataNetworkIfname wOK.routes },
       [.cniAttach (ipFixedConf (IPNet.render ⟨"10.0.0.5", "24"⟩))
          { ContainerID := st0.containerID, NetNS := st0.netnsPath,
            IfName := dataNetworkIfname, Args := [] },
        .shape cfgA.Default, .addRules cfgA.Rules,
        .routingPolicy cfgA.RoutingPolicy]⟩ ∧
    countAttach (configureNetworkBody wOK cfgA st0).trace = 1 :=
  configureNetworkBody_scenarioA wOK cfgA st0 ⟨"10.0.0.5", "24"⟩
    rfl rfl rfl rfl rfl rfl rfl rfl rfl rfl rfl rfl rfl rfl

/-- A world in which the 30-second timer fires before the retried attach
delivers its result. -/
def wTimeout : World :=
  { wOK with deadlineFirst := true,
             addResults := fun _ => some ("connection refused") }

/-- C6 counterexample.  Even when the 30-second deadline would elapse
first, `ConfigureNetwork` does not return a timeout error: the
hard-coded skip returns nil before the attach path (and its deadline
race) is ever reached. -/
theorem configureNetwork_timeout_counterexample :
    wTimeout.deadlineFirst = true ∧ cfgA.Network = defaultDataNetwork ∧
    K8sNetwork.ConfigureNetwork wTimeout cfgA st0 = ⟨.ok, st0, []⟩ := by
  refine ⟨rfl, rfl, ?_⟩
  simp [K8sNetwork.ConfigureNetwork, skipConfig, cfgA, defaultDataNetwork]

/-- C6 amended.  The deadline race exists only in the unreachable body:
there, when the 30-second timer fires before the retry loop delivers a
result, the attach path returns the timeout error even though retry
attempts remain; when the retry loop finishes first, its result is used
— a wrapped attach error naming the 3-attempt budget after exhausted
retries, and continuation past the attach step (ending in nil when every
later step succeeds) after a successful attach.  `ConfigureNetwork`
itself never reaches this race (see the counterexample). -/
theorem configureNetworkBody_deadline_race
    (w : World) (cfg : NetworkConfig) (st : K8sNetwork)
    (hen : cfg.Enable = true) (h6 : cfg.IPv6 = none)
    (hoff : mapLookup st.activeLinks cfg.Network = none) :
    (w.deadlineFirst = true →
      (configureNetworkBody w cfg st).outcome =
        .err ("timeout waiting on cninet.AddNetworkList")) ∧
    (∀ e, w.deadlineFirst = false → (∀ i, i < 3 → (w.addResults i).isSome) →
      w.addResults 2 = some e →
      (configureNetworkBody w cfg st).outcome =
        .err ("failed to add network through cni plugin: " ++ retryErrMsg 3 e)) ∧
    (∀ a, w.deadlineFirst = false → w.addResults 0 = none →
      w.linkByNameErr = none → w.routesErr = none → w.newNetlinkErr = none →
      w.listV4Err = none → w.v4addrs = [a] → w.shapeErr = none →
      w.addRulesErr = none → w.routingPolicyErr = none →
      (configureNetworkBody w cfg st).outcome = .ok) := by
  refine ⟨?_, ?_, ?_⟩
  · intro hdl
    cases h4 : cfg.IPv4 <;>
      simp [configureNetworkBody, attachBranch, hen, hoff, h6, h4, hdl,
        newNetworkConfigList]
  · intro e hdl hfail hlast
    have hr : retry 3 2 w.addResults = (3, some (retryErrMsg 3 e)) := by
      unfold retry
      exact retryAux_exhaust 3 w.addResults e (by omega) hlast hfail 2 0
        (by omega) (by omega)
    cases h4 : cfg.IPv4 <;>
      simp [configureNetworkBody, attachBranch, hen, hoff, h6, h4, hdl, hr,
        newNetworkConfigList]
  · intro a hdl ha0 hlink hroutes hnl hlist hv4 hsh hru hrp
    have hr : retry 3 2 w.addResults = (1, none) := by
      unfold retry
      exact retryAux_of_none ha0
    cases h4 : cfg.IPv4 <;>
      simp [configureNetworkBody, attachBranch, shapeTail, hen, hoff, h6, h4,
        hdl, hr, hlink, hroutes, hnl, hlist, hv4, hsh, hru, hrp,
        newNetworkConfigList]

/-- Witness for C6 amended: the all-failing world under the elapsed
deadline, the exhausted-retries world, and the all-success world. -/
theorem configureNetworkBody_deadline_race_witness :
    (configureNetworkBody wTimeout cfgA st0).outcome =
      .err ("timeout waiting on cninet.AddNetworkList") ∧
    (configureNetworkBody { wTimeout with deadlineFirst := false } cfgA st0).outcome =
      .err ("failed to add network through cni plugin: " ++
            retryErrMsg 3 ("connection refused")) ∧
    (configureNetworkBody wOK cfgA st0).outcome = .ok :=
  ⟨(configureNetworkBody_deadline_race wTimeout cfgA st0 rfl rfl rfl).1 rfl,
   (configureNetworkBody_deadline_race { wTimeout with deadlineFirst := false }
      cfgA st0 rfl rfl rfl).2.1 ("connection refused") rfl (fun _ _ => rfl) rfl,
   (configureNetworkBody_deadline_race wOK cfgA st0 rfl rfl rfl).2.2
     ⟨"10.0.0.5", "24"⟩ rfl rfl rfl rfl rfl rfl rfl rfl rfl rfl⟩

/-- A world in which the kernel reports no IPv4 address on the new
interface. -/
def wZero : World := { wOK with v4addrs := [] }

/-- C8 counterexample.  When the kernel reports zero IPv4 addresses
after a successful attach, the (unreachable) configuration body does not
proceed with a warning: it logs the warning and then panics indexing
`v4addrs[0]`, recording no active link and never reaching the shaping,
rules or routing-policy steps. -/
theorem configureNetworkBody_zero_addrs_counterexample :
    configureNetworkBody wZero cfgA st0 =
      ⟨.panic ("runtime error: index out of range [0] with length 0"),
       { st0 with externalRouting :=
           routesInsert st0.externalRouting dataNetworkIfname wZero.routes },
       [.cniAttach (ipFixedConf ("10.0.0.5/24"))
          { ContainerID := st0.containerID, NetNS := st0.netnsPath,
            IfName := dataNetworkIfname, Args := [] },
        .warnAddrCount 0]⟩ := by
  have hr : retry 3 2 (fun _ : Nat => (none : Option String)) = (1, none) := by
    unfold retry
    exact retryAux_of_none rfl
  simp [configureNetworkBody, attachBranch, hr, cfgA, st0, wZero, wOK,
    newNetworkConfigList, ipFixedConf, IPNet.render, defaultDataNetwork,
    mapLookup]

/-- A world in which the kernel reports two IPv4 addresses. -/
def wTwo : World :=
  { wOK with v4addrs := [⟨"10.0.0.5", "24"⟩, ⟨"10.0.0.6", "24"⟩] }

/-- C8 amended.  After a successful attach, an IPv4 address count other
than one but at least one is handled as a logged warning only: the body
records the active link using the first reported address and proceeds to
shaping, rules and routing policy.  A count of zero instead aborts with
a Go index-out-of-range panic (see the counterexample), and under the
hard-coded skip `ConfigureNetwork` never attaches at all. -/
theorem configureNetworkBody_addr_count_warning
    (w : World) (cfg : NetworkConfig) (st : K8sNetwork) (a4 a : IPNet)
    (rest : List IPNet)
    (hen : cfg.Enable = true) (h4 : cfg.IPv4 = some a4) (h6 : cfg.IPv6 = none)
    (hoff : mapLookup st.activeLinks cfg.Network = none)
    (hdl : w.deadlineFirst = false) (ha0 : w.addResults 0 = none)
    (hlink : w.linkByNameErr = none) (hroutes : w.routesErr = none)
    (hnl : w.newNetlinkErr = none) (hlist : w.listV4Err = none)
    (hv4 : w.v4addrs = a :: rest) (hsh : w.shapeErr = none)
    (hru : w.addRulesErr = none) (hrp : w.routingPolicyErr = none) :
    configureNetworkBody w cfg st =
      ⟨.ok,
       { st with
           activeLinks := mapInsert st.activeLinks cfg.Network
             { IPv4 := some a, IPv6 := none,
               rt := { ContainerID := st.containerID, NetNS := st.netnsPath,
                       IfName := dataNetworkIfname, Args := [] },
               netconf := ipFixedConf a4.render },
           externalRouting :=
             routesInsert st.externalRouting dataNetworkIfname w.routes },
       [.cniAttach (ipFixedConf a4.render)
          { ContainerID := st.containerID, NetNS := st.netnsPath,
            IfName := dataNetworkIfname, Args := [] }] ++
       (if rest.length + 1 ≠ 1 then [.warnAddrCount (rest.length + 1)] else []) ++
       [.shape cfg.Default, .addRules cfg.Rules,
        .routingPolicy cfg.RoutingPolicy]⟩ := by
  have hr : retry 3 2 w.addResults = (1, none) := by
    unfold retry
    exact retryAux_of_none ha0
  by_cases hrest : rest.length + 1 ≠ 1 <;>
    simp [configureNetworkBody, attachBranch, shapeTail, hen, hoff, h4, h6,
      hdl, hr, hlink, hroutes, hnl, hlist, hv4, hsh, hru, hrp, hrest,
      newNetworkConfigList, ipFixedConf]

/-- Witness for C8 amended: the two-address world proceeds with the
warning and records the first address. -/
theorem configureNetworkBody_addr_count_warning_witness :
    configureNetworkBody wTwo cfgA st0 =
      ⟨.ok,
       { st0 with
           activeLinks := mapInsert st0.activeLinks cfgA.Network
             { IPv4 := some ⟨"10.0.0.5", "24"⟩, IPv6 := none,
               rt := { ContainerID := st0.containerID, NetNS := st0.netnsPath,
                       IfName := dataNetworkIfname, Args := [] },
               netconf := ipFixedConf (IPNet.render ⟨"10.0.0.5", "24"⟩) },
           externalRouting :=
             routesInsert st0.externalRouting dataNetworkIfname wTwo.routes },
       [.cniAttach (ipFixedConf (IPNet.render ⟨"10.0.0.5", "24"⟩))
          { ContainerID := st0.containerID, NetNS := st0.netnsPath,
            IfName := dataNetworkIfname, Args := [] }] ++
       (if [(⟨"10.0.0.6", "24"⟩ : IPNet)].length + 1 ≠ 1 then
          [.warnAddrCount ([(⟨"10.0.0.6", "24"⟩ : IPNet)].length + 1)]
        else []) ++
       [.shape cfgA.Default, .addRules cfgA.Rules,
        .routingPolicy cfgA.RoutingPolicy]⟩ :=
  configureNetworkBody_addr_count_warning wTwo cfgA st0
    ⟨"10.0.0.5", "24"⟩ ⟨"10.0.0.5", "24"⟩ [⟨"10.0.0.6", "24"⟩]
    rfl rfl rfl rfl rfl rfl rfl rfl rfl rfl rfl rfl rfl rfl

/-- Scenario A's config with the enable flag cleared. -/
def cfgDisable : NetworkConfig := { cfgA with Enable := false }

/-- C9 counterexample.  Disabling a managed network whose link is online
does not detach it: the hard-coded skip returns nil with zero CNI detach
calls and the active link still in the table. -/
theorem configureNetwork_disable_online_counterexample :
    cfgDisable.Enable = false ∧
    mapLookup stOn.activeLinks cfgDisable.Network = some linkA ∧
    K8sNetwork.ConfigureNetwork wOK cfgDisable stOn = ⟨.ok, stOn, []⟩ ∧
    countDetach (K8sNetwork.ConfigureNetwork wOK cfgDisable stOn).trace = 0 ∧
    mapLookup (K8sNetwork.ConfigureNetwork wOK cfgDisable stOn).state.activeLinks
      cfgDisable.Network = some linkA := by
  refine ⟨rfl, rfl, ?_, ?_, ?_⟩ <;>
    simp [K8sNetwork.ConfigureNetwork, skipConfig, cfgDisable, cfgA,
      defaultDataNetwork, countDetach, mapLookup, stOn, st0, linkA]

/-- C9 amended.  Disabling never issues a CNI call at all in
`ConfigureNetwork`: for every managed-name config with `Enable` false —
link online or not — it returns success with an empty trace and the
table unchanged (hard-coded skip); in the unreachable body, disabling an
offline network is indeed a success-returning no-op with zero detach
calls, while disabling an online one issues exactly one CNI detach and
removes the link. -/
theorem configureNetwork_disable_cases :
    (∀ (w : World) (cfg : NetworkConfig) (st : K8sNetwork),
      cfg.Network = defaultDataNetwork → cfg.Enable = false →
      K8sNetwork.ConfigureNetwork w cfg st = ⟨.ok, st, []⟩) ∧
    (∀ (w : World) (cfg : NetworkConfig) (st : K8sNetwork),
      cfg.Enable = false → mapLookup st.activeLinks cfg.Network = none →
      configureNetworkBody w cfg st = ⟨.ok, st, []⟩) ∧
    (∀ (w : World) (cfg : NetworkConfig) (st : K8sNetwork) (link : K8sLink),
      cfg.Enable = false → mapLookup st.activeLinks cfg.Network = some link →
      w.delErr = none →
      configureNetworkBody w cfg st =
        ⟨.ok, { st with activeLinks := mapErase st.activeLinks cfg.Network },
         [.cniDetach link.netconf link.rt]⟩) := by
  refine ⟨?_, ?_, ?_⟩
  · intro w cfg st hname hdis
    unfold K8sNetwork.ConfigureNetwork
    simp [hname, skipConfig]
  · intro w cfg st hdis hoff
    simp [configureNetworkBody, hdis, hoff]
  · intro w cfg st link hdis hlk hdel
    simp [configureNetworkBody, hdis, hlk, hdel]

/-- Witness for C9 amended: skip-level no-op on the online state, body
no-op on the offline state, body detach-and-remove on the online state. -/
theorem configureNetwork_disable_cases_witness :
    K8sNetwork.ConfigureNetwork wOK cfgDisable stOn = ⟨.ok, stOn, []⟩ ∧
    configureNetworkBody wOK cfgDisable st0 = ⟨.ok, st0, []⟩ ∧
    configureNetworkBody wOK cfgDisable stOn =
      ⟨.ok, { stOn with activeLinks := mapErase stOn.activeLinks cfgDisable.Network },
       [.cniDetach linkA.netconf linkA.rt]⟩ :=
  ⟨configureNetwork_disable_cases.1 wOK cfgDisable stOn rfl rfl,
   configureNetwork_disable_cases.2.1 wOK cfgDisable st0 rfl rfl,
   configureNetwork_disable_cases.2.2 wOK cfgDisable stOn linkA rfl rfl rfl⟩

/-- Scenario A's config requesting a different IPv4 address than the one
held by `linkA`. -/
def cfgB : NetworkConfig := { cfgA with IPv4 := some ⟨"10.0.0.9", "24"⟩ }

/-- C10 counterexample.  Processing an enabled managed config whose
requested address differs from the online link's current address
performs no detach at all: the hard-coded skip returns nil with an empty
trace and the old link still in the table, so the claimed
detach-then-reattach sequence never happens. -/
theorem configureNetwork_addr_change_counterexample :
    linkA.IPv4.map IPNet.ip ≠ cfgB.IPv4.map IPNet.ip ∧
    mapLookup stOn.activeLinks cfgB.Network = some linkA ∧
    cfgB.Enable = true ∧
    K8sNetwork.ConfigureNetwork wOK cfgB stOn = ⟨.ok, stOn, []⟩ ∧
    countDetach (K8sNetwork.ConfigureNetwork wOK cfgB stOn).trace = 0 ∧
    mapLookup (K8sNetwork.ConfigureNetwork wOK cfgB stOn).state.activeLinks
      cfgB.Network = some linkA := by
  refine ⟨by decide, rfl, rfl, ?_, ?_, ?_⟩ <;>
    simp [K8sNetwork.ConfigureNetwork, skipConfig, cfgB, cfgA,
      defaultDataNetwork, countDetach, mapLookup, stOn, st0, linkA]

/-- C10 amended.  `ConfigureNetwork` never changes an address in place —
under the hard-coded skip it never changes anything (see the
counterexample).  In the unreachable body the invariant holds as
specified: an enabled config whose requested address differs from the
online link's address first completes the CNI detach of the old link and
removes it from the table (the table entry for the network is gone
before the attach step starts), and only then issues the attach of the
new address; the trace shows the detach strictly before the single
attach, and the final table holds only the newly attached link. -/
theorem configureNetworkBody_change_detach_before_attach
    (w : World) (cfg : NetworkConfig) (st : K8sNetwork) (link : K8sLink)
    (a b : IPNet)
    (hen : cfg.Enable = true)
    (hlk : mapLookup st.activeLinks cfg.Network = some link)
    (hl4 : link.IPv4 = some a) (h4 : cfg.IPv4 = some b) (hab : a.ip ≠ b.ip)
    (h6 : cfg.IPv6 = none)
    (hdel : w.delErr = none) (hdl : w.deadlineFirst = false)
    (ha0 : w.addResults 0 = none) (hlink : w.linkByNameErr = none)
    (hroutes : w.routesErr = none) (hnl : w.newNetlinkErr = none)
    (hlist : w.listV4Err = none) (hv4 : w.v4addrs = [b])
    (hsh : w.shapeErr = none) (hru : w.addRulesErr = none)
    (hrp : w.routingPolicyErr = none) :
    mapLookup (mapErase st.activeLinks cfg.Network) cfg.Network = none ∧
    configureNetworkBody w cfg st =
      ⟨.ok,
       { st with
           activeLinks := mapInsert (mapErase st.activeLinks cfg.Network)
             cfg.Network
             { IPv4 := some b, IPv6 := none,
               rt := { ContainerID := st.containerID, NetNS := st.netnsPath,
                       IfName := dataNetworkIfname, Args := [] },
               netconf := ipFixedConf b.render },
           externalRouting :=
             routesInsert st.externalRouting dataNetworkIfname w.routes },
       [.cniDetach link.netconf link.rt,
        .cniAttach (ipFixedConf b.render)
          { ContainerID := st.containerID, NetNS := st.netnsPath,
            IfName := dataNetworkIfname, Args := [] },
        .shape cfg.Default, .addRules cfg.Rules,
        .routingPolicy cfg.RoutingPolicy]⟩ := by
  have hr : retry 3 2 w.addResults = (1, none) := by
    unfold retry
    exact retryAux_of_none ha0
  have hmm : addrMismatch link cfg = .ok true := by
    simp [addrMismatch, h6, h4, hl4, hab]
  refine ⟨mapLookup_mapErase st.activeLinks cfg.Network, ?_⟩
  simp [configureNetworkBody, attachBranch, shapeTail, hen, hlk, hmm, h4, h6,
    hdel, hdl, hr, hlink, hroutes, hnl, hlist, hv4, hsh, hru, hrp,
    newNetworkConfigList, ipFixedConf]

/-- A world in which the kernel reports the newly requested address
`10.0.0.9/24`. -/
def wB : World := { wOK with v4addrs := [⟨"10.0.0.9", "24"⟩] }

/-- Witness for C10 amended: changing `linkA`'s address from
`10.0.0.5/24` to `10.0.0.9/24` on the online state. -/
theorem configureNetworkBody_change_detach_before_attach_witness :
    mapLookup (mapErase stOn.activeLinks cfgB.Network) cfgB.Network = none ∧
    configureNetworkBody wB cfgB stOn =
      ⟨.ok,
       { stOn with
           activeLinks := mapInsert (mapErase stOn.activeLinks cfgB.Network)
             cfgB.Network
             { IPv4 := some ⟨"10.0.0.9", "24"⟩, IPv6 := none,
               rt := { ContainerID := stOn.containerID, NetNS := stOn.netnsPath,
                       IfName := dataNetworkIfname, Args := [] },
               netconf := ipFixedConf (IPNet.render ⟨"10.0.0.9", "24"⟩) },
           externalRouting :=
             routesInsert stOn.externalRouting dataNetworkIfname wB.routes },
       [.cniDetach linkA.netconf linkA.rt,
        .cniAttach (ipFixedConf (IPNet.render ⟨"10.0.0.9", "24"⟩))
          { ContainerID := stOn.containerID, NetNS := stOn.netnsPath,
            IfName := dataNetworkIfname, Args := [] },
        .shape cfgB.Default, .addRules cfgB.Rules,
        .routingPolicy cfgB.RoutingPolicy]⟩ :=
  configureNetworkBody_change_detach_before_attach wB cfgB stOn linkA
    ⟨"10.0.0.5", "24"⟩ ⟨"10.0.0.9", "24"⟩
    rfl rfl rfl rfl (by decide) rfl rfl rfl rfl rfl rfl rfl rfl rfl rfl rfl rfl

end Sidecar
